import Mathlib

/-!
Verification of the youtube-downloader CLI (`src/youtube.py`).

The Python source is shallowly embedded below.  Pure helpers become Lean
functions; the calls into the standard library (`urllib.parse.urlparse`)
and into the external retrieval collaborator (pytube) are modelled
explicitly: `urlparse` is embedded from CPython's well-known
`urlsplit` implementation (the scheme/netloc part, which is all the
program reads), and the collaborator's stream-selection helpers are
modelled from the spec, since pytube is not part of this repository.
Exceptions become `Except`/`Option` values; the printed error messages
become a `FailureReason` tag so theorems can talk about which failure a
run reports.
-/

namespace YT

/-! ### Model of `urllib.parse.urlparse` (scheme and netloc only)

Embedded from CPython's `urlsplit` (3.10-era, with the WHATWG strip of
leading C0-control/space characters and removal of tab/CR/LF):
the scheme is recognised when the first `:` is preceded by a nonempty
run of ASCII letter/digit/`+`/`-`/`.` characters starting with a letter,
and is lowercased; the netloc is taken after a leading `//` up to the
first `/`, `?` or `#`, with its case preserved; a netloc containing
`[` without `]` (or vice versa) raises `ValueError`, modelled as `none`.
The NFKC netloc check (which only concerns certain non-ASCII netlocs)
is omitted.  `result.netloc` is what the program calls the host. -/

def isC0ControlOrSpace (c : Char) : Bool := c.toNat ≤ 0x20

def isUnsafeUrlChar (c : Char) : Bool := c = '\t' || c = '\r' || c = '\n'

def isSchemeChar (c : Char) : Bool := c.isAlpha || c.isDigit || c = '+' || c = '-' || c = '.'

def isNetlocEnd (c : Char) : Bool := c = '/' || c = '?' || c = '#'

/-- The sanitisation `urlsplit` applies before parsing: strip leading
C0-control/space characters, then remove every tab, CR and LF. -/
def sanitizeUrl (url : List Char) : List Char :=
  (url.dropWhile isC0ControlOrSpace).filter (fun c => !isUnsafeUrlChar c)

/-- Scheme recognition of `urlsplit`: `i = url.find(':')`; the scheme is
`url[:i].lower()` when `i > 0`, `url[0]` is an ASCII letter and every
character of `url[:i]` is a scheme character; otherwise empty. -/
def splitScheme (url : List Char) : List Char × List Char :=
  let pre := url.takeWhile (fun c => c ≠ ':')
  if decide (pre.length < url.length) && !pre.isEmpty && (pre.headD ' ').isAlpha && pre.all isSchemeChar then
    (pre.map Char.toLower, url.drop (pre.length + 1))
  else
    ([], url)

/-- `urlsplit`, restricted to the `(scheme, netloc)` pair the program
reads; `none` models the `ValueError` raised on a bracket-mismatched
netloc ("Invalid IPv6 URL"). -/
def pyUrlsplit (url : List Char) : Option (List Char × List Char) :=
  let u := sanitizeUrl url
  let (scheme, rest) := splitScheme u
  match rest with
  | '/' :: '/' :: r =>
    let netloc := r.takeWhile (fun c => !isNetlocEnd c)
    if (netloc.contains '[' != netloc.contains ']') then none
    else some (scheme, netloc)
  | _ => some (scheme, [])

/-- Python's substring test `sub in s`, i.e. contiguous-sublist
containment. -/
def pyIn (sub s : List Char) : Bool := decide (sub <:+: s)

/-! ### `is_valid_url` (src/youtube.py lines 45-54) -/

/-- `is_valid_url(url)`: parse with `urlparse` and require the scheme to
be `http` or `https` and the netloc to contain `"youtube.com"` or
`"youtu.be"` as a substring; the bare `except` turns any parse error
into `False`. -/
def is_valid_url (url : String) : Bool :=
  match pyUrlsplit url.toList with
  | none => false
  | some (scheme, netloc) =>
    (scheme == "http".toList || scheme == "https".toList) &&
    (pyIn "youtube.com".toList netloc || pyIn "youtu.be".toList netloc)

example : is_valid_url "https://www.youtube.com/watch?v=dQw4w9WgXcQ" = true := by decide
example : is_valid_url "not-a-url" = false := by decide
example : is_valid_url "ftp://youtube.com/x" = false := by decide
example : is_valid_url "https://WWW.YOUTUBE.COM/watch?v=x" = false := by decide
example : is_valid_url "http://youtu.be/abc" = true := by decide
example : is_valid_url "HTTPS://youtube.com/w" = true := by decide
example : is_valid_url "http://[youtube.com" = false := by decide
example : pyUrlsplit "http://[youtube.com".toList = none := by decide

/-! ### The external retrieval collaborator (pytube)

pytube is not part of this repository; the program calls
`YouTube(url)`, `yt.streams.get_highest_resolution()`,
`yt.streams.get_lowest_resolution()`,
`yt.streams.filter(only_audio=True).first()` and `stream.download(...)`.
A stream is an opaque descriptor carrying an optional resolution (video
streams) and an audio-only flag; exceptions raised by the collaborator
carry a message and a flag telling whether they are `PytubeError`s. -/

structure StreamDescriptor where
  resolution : Option Nat
  onlyAudio : Bool
deriving DecidableEq, Repr

/-- An exception raised by the collaborator: its message text, and
whether it is a `PytubeError` (as opposed to any other `Exception`). -/
structure PyError where
  isPytube : Bool
  msg : String
deriving DecidableEq, Repr

/-- Maximum resolution present among the streams of a list (`none` when
no stream carries a resolution). -/
def maxRes : List StreamDescriptor → Option Nat
  | [] => none
  | s :: rest =>
    match s.resolution, maxRes rest with
    | none, m => m
    | some r, none => some r
    | some r, some m => some (Nat.max r m)

/-- Minimum resolution present among the streams of a list. -/
def minRes : List StreamDescriptor → Option Nat
  | [] => none
  | s :: rest =>
    match s.resolution, minRes rest with
    | none, m => m
    | some r, none => some r
    | some r, some m => some (Nat.min r m)

/-- Modelled from the spec: the collaborator's
`streams.get_highest_resolution()` — "choose the stream with maximum
resolution among video-capable streams; tie-break … first match wins"
(pytube itself is missing from src/).  The first stream whose resolution
attains the maximum is chosen; streams without a resolution are not
video-capable and are never chosen. -/
def get_highest_resolution (streams : List StreamDescriptor) : Option StreamDescriptor :=
  match maxRes streams with
  | none => none
  | some m => streams.find? (fun s => s.resolution == some m)

/-- Modelled from the spec: the collaborator's
`streams.get_lowest_resolution()` — "Lowest: symmetric, minimum
resolution" (pytube itself is missing from src/). -/
def get_lowest_resolution (streams : List StreamDescriptor) : Option StreamDescriptor :=
  match minRes streams with
  | none => none
  | some m => streams.find? (fun s => s.resolution == some m)

/-- Modelled from the spec: the collaborator's
`streams.filter(only_audio=True).first()` — "choose the first stream
flagged audio-only, in collaborator-provided order" (pytube itself is
missing from src/). -/
def firstAudio (streams : List StreamDescriptor) : Option StreamDescriptor :=
  (streams.filter (fun s => s.onlyAudio)).head?

/-! ### `download_video` (src/youtube.py lines 63-94) -/

/-- Which error message a failing run prints (the code prints them in
Portuguese; the tag abstracts the message, the `msg` fields carry the
interpolated exception text). -/
inductive FailureReason where
  | invalidUrl
  | noStreamAvailable
  | pytubeError (msg : String)
  | unexpectedError (msg : String)
deriving DecidableEq, Repr

/-- The two `except` clauses of `download_video`: a `PytubeError` prints
"Erro no YouTube: e", any other exception prints "Falha ao baixar o
vídeo: e"; both carry the exception's text. -/
def reasonOfError (e : PyError) : FailureReason :=
  if e.isPytube then .pytubeError e.msg else .unexpectedError e.msg

/-- The error text carried by a failure reason, if any. -/
def FailureReason.errText : FailureReason → Option String
  | .pytubeError m => some m
  | .unexpectedError m => some m
  | _ => none

/-- Everything observable about one `download_video` call: its return
value (`None` becomes `none`), the error message it printed (if any),
and whether the collaborator was invoked for resolution
(`YouTube(url)`) and for fetching (`stream.download`). -/
structure DownloadOutcome where
  result : Option String
  reason : Option FailureReason
  resolveCalled : Bool
  fetchCalled : Bool
deriving DecidableEq, Repr

/-- The three-way quality dispatch inside `download_video` (lines
74-80): `stream` starts as `None` and is only assigned on one of the
three recognised tokens. -/
def selectStream (streams : List StreamDescriptor) (quality : String) : Option StreamDescriptor :=
  if quality == "highest" then get_highest_resolution streams
  else if quality == "lowest" then get_lowest_resolution streams
  else if quality == "audio" then firstAudio streams
  else none

/-- `download_video(url, quality)`.  The collaborator's behaviour is a
parameter: `resolve` is what `YouTube(url)` + stream enumeration does
(raise, or yield the stream list), `fetch` is what
`stream.download(output_path=VIDEOS_DIR)` does on the selected stream
(raise, or yield the saved file's path). -/
def download_video (url : String) (quality : String)
    (resolve : Except PyError (List StreamDescriptor))
    (fetch : StreamDescriptor → Except PyError String) : DownloadOutcome :=
  if is_valid_url url then
    match resolve with
    | .error e => ⟨none, some (reasonOfError e), true, false⟩
    | .ok streams =>
      match selectStream streams quality with
      | none => ⟨none, some .noStreamAvailable, true, false⟩
      | some s =>
        match fetch s with
        | .error e => ⟨none, some (reasonOfError e), true, true⟩
        | .ok path => ⟨some path, none, true, true⟩
  else
    ⟨none, some .invalidUrl, false, false⟩

/-! ### `main` and the CLI shell (src/youtube.py lines 56-61, 96-121) -/

def SUPPORTED_QUALITIES : List String := ["highest", "lowest", "audio"]

/-- Python's `str.lower()` (the program only compares against ASCII
tokens, where it coincides with per-character lowering). -/
def pyLower (s : String) : String := String.mk (s.data.map Char.toLower)

/-- Python's `str.strip()`: remove leading and trailing whitespace. -/
def pyStrip (s : String) : String :=
  String.mk (((s.data.dropWhile Char.isWhitespace).reverse.dropWhile Char.isWhitespace).reverse)

/-- `get_user_input()`: both entries are `.strip()`ped and an empty
quality defaults to `SUPPORTED_QUALITIES[0]` (Python's `or`). -/
def get_user_input (rawUrl rawQuality : String) : String × String :=
  (pyStrip rawUrl,
   if pyStrip rawQuality == "" then SUPPORTED_QUALITIES.getD 0 "" else pyStrip rawQuality)

/-- One run of `main`: either a `KeyboardInterrupt` arrives during the
interactive input or the download (the `try` spans both), or the run
proceeds normally with the two entered strings and the collaborator's
behaviour. -/
inductive RunEvent where
  | interrupt
  | normal (rawUrl rawQuality : String)
      (resolve : Except PyError (List StreamDescriptor))
      (fetch : StreamDescriptor → Except PyError String)

/-- Everything observable about one `main` run: the process exit code,
whether the "Qualidade inválida" warning was printed, the quality token
passed to `download_video`, the download outcome, and whether the
cancellation message was printed. -/
structure MainOutcome where
  exitCode : Nat
  warnedInvalidQuality : Bool
  qualityUsed : Option String
  download : Option DownloadOutcome
  cancelMessagePrinted : Bool

/-- `main()` (lines 96-121): normalize the quality token
case-insensitively, falling back to `"highest"` with a warning when
unrecognised; call `download_video` once; exit 0 on any normal path.
`KeyboardInterrupt` prints the cancellation message and `sys.exit(1)`s
(it is a `BaseException`, so the `except Exception` inside
`download_video` does not catch it). -/
def main : RunEvent → MainOutcome
  | .interrupt => ⟨1, false, none, none, true⟩
  | .normal rawUrl rawQuality resolve fetch =>
    let p := get_user_input rawUrl rawQuality
    let url := p.1
    let quality := p.2
    let warned := !(SUPPORTED_QUALITIES.contains (pyLower quality))
    let quality2 := if warned then "highest" else quality
    let outcome := download_video url (pyLower quality2) resolve fetch
    ⟨0, warned, some (pyLower quality2), some outcome, false⟩

/-! ### Helper lemmas -/

lemma selectStream_unsupported (streams : List StreamDescriptor) (quality : String)
    (h : quality ∉ SUPPORTED_QUALITIES) : selectStream streams quality = none := by
  simp only [SUPPORTED_QUALITIES, List.mem_cons, List.not_mem_nil, or_false, not_or] at h
  obtain ⟨h1, h2, h3⟩ := h
  simp [selectStream, h1, h2, h3]

lemma errText_reasonOfError (e : PyError) :
    (reasonOfError e).errText = some e.msg := by
  cases h : e.isPytube <;> simp [reasonOfError, h, FailureReason.errText]

lemma head?_filter_eq_find? (p : StreamDescriptor → Bool) (l : List StreamDescriptor) :
    (l.filter p).head? = l.find? p := by
  induction l with
  | nil => rfl
  | cons a t ih =>
    cases h : p a <;> simp [List.filter_cons, List.find?_cons, h, ih]

lemma maxRes_eq_none {l : List StreamDescriptor} :
    maxRes l = none → ∀ t ∈ l, t.resolution = none := by
  induction l with
  | nil => intro _ t ht; cases ht
  | cons a rest ih =>
    intro h t ht
    rw [maxRes] at h
    cases ha : a.resolution with
    | none =>
      rw [ha] at h
      rcases List.mem_cons.mp ht with rfl | ht'
      · exact ha
      · exact ih h t ht'
    | some r =>
      rw [ha] at h
      cases hm : maxRes rest with
      | none => rw [hm] at h; cases h
      | some m => rw [hm] at h; cases h

lemma minRes_eq_none {l : List StreamDescriptor} :
    minRes l = none → ∀ t ∈ l, t.resolution = none := by
  induction l with
  | nil => intro _ t ht; cases ht
  | cons a rest ih =>
    intro h t ht
    rw [minRes] at h
    cases ha : a.resolution with
    | none =>
      rw [ha] at h
      rcases List.mem_cons.mp ht with rfl | ht'
      · exact ha
      · exact ih h t ht'
    | some r =>
      rw [ha] at h
      cases hm : minRes rest with
      | none => rw [hm] at h; cases h
      | some m => rw [hm] at h; cases h

lemma maxRes_le {l : List StreamDescriptor} {m : Nat} :
    maxRes l = some m → ∀ t ∈ l, ∀ rt, t.resolution = some rt → rt ≤ m := by
  induction l generalizing m with
  | nil => intro h; cases h
  | cons a rest ih =>
    intro h t ht rt hrt
    rw [maxRes] at h
    cases ha : a.resolution with
    | none =>
      rw [ha] at h
      rcases List.mem_cons.mp ht with rfl | ht'
      · rw [ha] at hrt; cases hrt
      · exact ih h t ht' rt hrt
    | some r =>
      rw [ha] at h
      cases hm : maxRes rest with
      | none =>
        rw [hm] at h
        obtain rfl : r = m := Option.some.inj h
        rcases List.mem_cons.mp ht with rfl | ht'
        · rw [ha] at hrt; exact Nat.le_of_eq (Option.some.inj hrt.symm)
        · rw [maxRes_eq_none hm t ht'] at hrt; cases hrt
      | some mr =>
        rw [hm] at h
        obtain rfl : Nat.max r mr = m := Option.some.inj h
        rcases List.mem_cons.mp ht with rfl | ht'
        · rw [ha] at hrt
          obtain rfl : r = rt := Option.some.inj hrt
          exact Nat.le_max_left r mr
        · exact Nat.le_trans (ih hm t ht' rt hrt) (Nat.le_max_right r mr)

lemma minRes_le {l : List StreamDescriptor} {m : Nat} :
    minRes l = some m → ∀ t ∈ l, ∀ rt, t.resolution = some rt → m ≤ rt := by
  induction l generalizing m with
  | nil => intro h; cases h
  | cons a rest ih =>
    intro h t ht rt hrt
    rw [minRes] at h
    cases ha : a.resolution with
    | none =>
      rw [ha] at h
      rcases List.mem_cons.mp ht with rfl | ht'
      · rw [ha] at hrt; cases hrt
      · exact ih h t ht' rt hrt
    | some r =>
      rw [ha] at h
      cases hm : minRes rest with
      | none =>
        rw [hm] at h
        obtain rfl : r = m := Option.some.inj h
        rcases List.mem_cons.mp ht with rfl | ht'
        · rw [ha] at hrt; exact Nat.le_of_eq (Option.some.inj hrt)
        · rw [minRes_eq_none hm t ht'] at hrt; cases hrt
      | some mr =>
        rw [hm] at h
        obtain rfl : Nat.min r mr = m := Option.some.inj h
        rcases List.mem_cons.mp ht with rfl | ht'
        · rw [ha] at hrt
          obtain rfl : r = rt := Option.some.inj hrt
          exact Nat.min_le_left r mr
        · exact Nat.le_trans (Nat.min_le_right r mr) (ih hm t ht' rt hrt)

/-- A character is "host-clean" when it survives sanitisation and does
not terminate or invalidate a netloc. -/
def hostClean (c : Char) : Bool :=
  !isC0ControlOrSpace c && !isUnsafeUrlChar c && !isNetlocEnd c && c != '[' && c != ']'

lemma pyUrlsplit_https_host (host rest : List Char)
    (hclean : ∀ c ∈ host, hostClean c = true) :
    pyUrlsplit ('h' :: 't' :: 't' :: 'p' :: 's' :: ':' :: '/' :: '/' :: (host ++ '/' :: rest)) =
      some (['h','t','t','p','s'], host) := by
  have hfilter : host.filter (fun c => !isUnsafeUrlChar c) = host := by
    refine List.filter_eq_self.mpr fun c hc => ?_
    have := hclean c hc
    simp [hostClean] at this
    simp [this]
  have hnl : ∀ c ∈ host, (fun c => !isNetlocEnd c) c = true := by
    intro c hc
    have := hclean c hc
    simp [hostClean] at this
    simp [this]
  have hsan : sanitizeUrl ('h' :: 't' :: 't' :: 'p' :: 's' :: ':' :: '/' :: '/' :: (host ++ '/' :: rest)) =
      'h' :: 't' :: 't' :: 'p' :: 's' :: ':' :: '/' :: '/' :: (host ++ '/' :: rest.filter (fun c => !isUnsafeUrlChar c)) := by
    unfold sanitizeUrl
    rw [List.dropWhile_cons_of_neg (by decide)]
    rw [List.filter_cons_of_pos (by decide), List.filter_cons_of_pos (by decide),
        List.filter_cons_of_pos (by decide), List.filter_cons_of_pos (by decide),
        List.filter_cons_of_pos (by decide), List.filter_cons_of_pos (by decide),
        List.filter_cons_of_pos (by decide), List.filter_cons_of_pos (by decide),
        List.filter_append, hfilter, List.filter_cons_of_pos (by decide)]
  simp only [pyUrlsplit, hsan]
  have htw : List.takeWhile (fun c => decide ¬(c = ':'))
      ('h' :: 't' :: 't' :: 'p' :: 's' :: ':' :: '/' :: '/' :: (host ++ '/' :: rest.filter (fun c => !isUnsafeUrlChar c))) =
      ['h','t','t','p','s'] := by
    rw [List.takeWhile_cons_of_pos (by decide), List.takeWhile_cons_of_pos (by decide),
        List.takeWhile_cons_of_pos (by decide), List.takeWhile_cons_of_pos (by decide),
        List.takeWhile_cons_of_pos (by decide), List.takeWhile_cons_of_neg (by decide)]
  simp only [splitScheme, htw]
  have hlen : (['h','t','t','p','s'].length <
      ('h' :: 't' :: 't' :: 'p' :: 's' :: ':' :: '/' :: '/' :: (host ++ '/' :: rest.filter (fun c => !isUnsafeUrlChar c))).length) := by
    simp [List.length_cons, List.length_append]
  rw [if_pos (by rw [decide_eq_true hlen]; decide :
    ((decide (['h','t','t','p','s'].length <
        ('h' :: 't' :: 't' :: 'p' :: 's' :: ':' :: '/' :: '/' :: (host ++ '/' :: rest.filter (fun c => !isUnsafeUrlChar c))).length) &&
      !(List.isEmpty ['h','t','t','p','s']) && (['h','t','t','p','s'].headD ' ').isAlpha &&
      ['h','t','t','p','s'].all isSchemeChar) = true))]
  have hdrop : List.drop (['h','t','t','p','s'].length + 1)
      ('h' :: 't' :: 't' :: 'p' :: 's' :: ':' :: '/' :: '/' :: (host ++ '/' :: rest.filter (fun c => !isUnsafeUrlChar c))) =
      '/' :: '/' :: (host ++ '/' :: rest.filter (fun c => !isUnsafeUrlChar c)) := rfl
  have hmap : List.map Char.toLower ['h','t','t','p','s'] = ['h','t','t','p','s'] := by decide
  have hc1 : '[' ∉ host := by
    intro hm
    have := hclean _ hm
    simp [hostClean] at this
  have hc2 : ']' ∉ host := by
    intro hm
    have := hclean _ hm
    simp [hostClean] at this
  have htw2 : List.takeWhile (fun c => !isNetlocEnd c)
      (host ++ '/' :: rest.filter (fun c => !isUnsafeUrlChar c)) = host := by
    rw [List.takeWhile_append_of_pos hnl,
        @List.takeWhile_cons_of_neg Char (fun c => !isNetlocEnd c) '/'
          (rest.filter (fun c => !isUnsafeUrlChar c)) (by decide),
        List.append_nil]
  rw [hmap, hdrop]
  simp [htw2, hc1, hc2]

lemma hostClean_of_toLower_mem {c : Char}
    (hm : c.toLower ∈ "youtube.com".toList) : hostClean c = true := by
  by_cases hc : 65 ≤ c.toNat ∧ c.toNat ≤ 90
  · have ht : c ≠ '\t' := by intro h; subst h; exact absurd hc (by decide)
    have hr : c ≠ '\r' := by intro h; subst h; exact absurd hc (by decide)
    have hn : c ≠ '\n' := by intro h; subst h; exact absurd hc (by decide)
    have hsl : c ≠ '/' := by intro h; subst h; exact absurd hc (by decide)
    have hq : c ≠ '?' := by intro h; subst h; exact absurd hc (by decide)
    have hh : c ≠ '#' := by intro h; subst h; exact absurd hc (by decide)
    have hlb : c ≠ '[' := by intro h; subst h; exact absurd hc (by decide)
    have hrb : c ≠ ']' := by intro h; subst h; exact absurd hc (by decide)
    have hc0 : isC0ControlOrSpace c = false := by
      simp only [isC0ControlOrSpace, decide_eq_false_iff_not]
      omega
    have hu : isUnsafeUrlChar c = false := by
      simp [isUnsafeUrlChar, ht, hr, hn]
    have hnl : isNetlocEnd c = false := by
      simp [isNetlocEnd, hsl, hq, hh]
    simp [hostClean, hc0, hu, hnl, hlb, hrb]
  · have hid : c.toLower = c := by
      simp only [Char.toLower]
      rw [if_neg hc]
    rw [hid] at hm
    have hm' : c ∈ ['y', 'o', 'u', 't', 'u', 'b', 'e', '.', 'c', 'o', 'm'] := hm
    simp only [List.mem_cons, List.not_mem_nil, or_false] at hm'
    rcases hm' with rfl | rfl | rfl | rfl | rfl | rfl | rfl | rfl | rfl | rfl | rfl <;> decide

lemma hostClean_of_toLower_mem_be {c : Char}
    (hm : c.toLower ∈ "youtu.be".toList) : hostClean c = true := by
  refine hostClean_of_toLower_mem ?_
  have hm' : c.toLower ∈ ['y', 'o', 'u', 't', 'u', '.', 'b', 'e'] := hm
  simp only [List.mem_cons, List.not_mem_nil, or_false] at hm'
  rcases hm' with h | h | h | h | h | h | h | h <;> rw [h] <;> decide

lemma is_valid_url_https_host_false (h : List Char) (path : String)
    (hclean : ∀ c ∈ h, hostClean c = true)
    (hn1 : ¬ ("youtube.com".toList <:+: h))
    (hn2 : ¬ ("youtu.be".toList <:+: h)) :
    is_valid_url ("https://" ++ String.mk h ++ "/" ++ path) = false := by
  have hsplit : pyUrlsplit ("https://" ++ String.mk h ++ "/" ++ path).toList =
      some ("https".toList, h) := by
    have h1 : ("https://" ++ String.mk h ++ "/" ++ path).toList =
        'h' :: 't' :: 't' :: 'p' :: 's' :: ':' :: '/' :: '/' :: (h ++ '/' :: path.toList) := by
      show ("https://" ++ String.mk h ++ "/" ++ path).data = _
      rw [String.data_append, String.data_append, String.data_append,
          List.append_assoc, List.append_assoc]
      rfl
    rw [h1]
    exact pyUrlsplit_https_host h _ hclean
  have h1 : pyIn "youtube.com".toList h = false := by rw [pyIn, decide_eq_false hn1]
  have h2 : pyIn "youtu.be".toList h = false := by rw [pyIn, decide_eq_false hn2]
  simp only [is_valid_url, hsplit]
  rw [h1, h2]
  simp

end YT

namespace YT

/-! ### Claims -/

/-- C1: for every request whose URL fails `is_valid_url`,
`download_video` returns a failure (`None`) with reason "invalid URL"
before any network call — whatever the collaborator would do, it is
never invoked (the outcome is a constant with `resolveCalled = false`
and `fetchCalled = false`). -/
theorem C1_invalid_url_rejected_without_network
    (url quality : String)
    (resolve : Except PyError (List StreamDescriptor))
    (fetch : StreamDescriptor → Except PyError String)
    (h : is_valid_url url = false) :
    download_video url quality resolve fetch =
      ⟨none, some .invalidUrl, false, false⟩ := by
  simp [download_video, h]

/-- Witness for C1 at the spec's end-to-end input "not-a-url". -/
theorem C1_witness :
    is_valid_url "not-a-url" = false ∧
    download_video "not-a-url" "highest" (.ok []) (fun _ => .ok "p") =
      ⟨none, some .invalidUrl, false, false⟩ :=
  ⟨by decide,
   C1_invalid_url_rejected_without_network "not-a-url" "highest" (.ok [])
     (fun _ => .ok "p") (by decide)⟩

/-- C4: every exception the collaborator raises — during resolution
(`YouTube(url)`) or during fetch (`stream.download`) — is caught by
`download_video`, which returns a failure outcome carrying the
exception's message text; no exception escapes (the function is total
and yields a `DownloadOutcome` value on both error paths). -/
theorem C4_collaborator_errors_caught :
    (∀ (url quality : String) (e : PyError)
       (fetch : StreamDescriptor → Except PyError String),
       is_valid_url url = true →
       download_video url quality (.error e) fetch =
         ⟨none, some (reasonOfError e), true, false⟩ ∧
       (reasonOfError e).errText = some e.msg) ∧
    (∀ (url quality : String) (streams : List StreamDescriptor)
       (s : StreamDescriptor) (e : PyError)
       (fetch : StreamDescriptor → Except PyError String),
       is_valid_url url = true →
       selectStream streams quality = some s →
       fetch s = .error e →
       download_video url quality (.ok streams) fetch =
         ⟨none, some (reasonOfError e), true, true⟩ ∧
       (reasonOfError e).errText = some e.msg) := by
  constructor
  · intro url quality e fetch hv
    exact ⟨by simp [download_video, hv], errText_reasonOfError e⟩
  · intro url quality streams s e fetch hv hsel hf
    exact ⟨by simp [download_video, hv, hsel, hf], errText_reasonOfError e⟩

/-- Witness for C4: a resolution error and a fetch error on the
Rickroll URL. -/
theorem C4_witness :
    (is_valid_url "https://www.youtube.com/watch?v=dQw4w9WgXcQ" = true ∧
     download_video "https://www.youtube.com/watch?v=dQw4w9WgXcQ" "highest"
       (.error ⟨true, "Video unavailable"⟩) (fun _ => .ok "p") =
       ⟨none, some (reasonOfError ⟨true, "Video unavailable"⟩), true, false⟩) ∧
    (selectStream [⟨some 360, false⟩] "highest" = some ⟨some 360, false⟩ ∧
     download_video "https://www.youtube.com/watch?v=dQw4w9WgXcQ" "highest"
       (.ok [⟨some 360, false⟩]) (fun _ => .error ⟨false, "disk full"⟩) =
       ⟨none, some (reasonOfError ⟨false, "disk full"⟩), true, true⟩) :=
  ⟨⟨by decide,
    (C4_collaborator_errors_caught.1 _ "highest" ⟨true, "Video unavailable"⟩
      (fun _ => .ok "p") (by decide)).1⟩,
   ⟨by decide,
    (C4_collaborator_errors_caught.2 _ "highest" [⟨some 360, false⟩]
      ⟨some 360, false⟩ ⟨false, "disk full"⟩ (fun _ => .error ⟨false, "disk full"⟩)
      (by decide) (by decide) rfl).1⟩⟩

/-- C5: `is_valid_url` is a total boolean function on all strings (being
a Lean function it is pure and deterministic), and on any input whose
parse fails (the modelled `ValueError`) the bare `except` makes it
return `false` rather than raise. -/
theorem C5_is_valid_url_total
    : (∀ url : String, pyUrlsplit url.toList = none → is_valid_url url = false) ∧
      (∀ url : String, is_valid_url url = false ∨ is_valid_url url = true) := by
  constructor
  · intro url h
    have h' : pyUrlsplit url.data = none := h
    simp [is_valid_url, h']
  · intro url
    cases h : is_valid_url url
    · exact Or.inl rfl
    · exact Or.inr rfl

/-- Witness for C5 at a malformed input (mismatched IPv6 bracket, where
`urlparse` raises `ValueError`). -/
theorem C5_witness :
    pyUrlsplit "http://[youtube".toList = none ∧
    is_valid_url "http://[youtube" = false :=
  ⟨by decide, C5_is_valid_url_total.1 "http://[youtube" (by decide)⟩

/-- C2: `is_valid_url` returns true iff the string parses (under the
modelled `urlparse`) with scheme "http" or "https" and a
network-location containing "youtube.com" or "youtu.be" as a substring;
in particular it is false whenever the parsed scheme is neither token,
false whenever the netloc contains neither substring, and true for
every well-formed URL with scheme https and host youtube.com, whatever
its path. -/
theorem C2_is_valid_url_characterisation :
    (∀ url : String,
       is_valid_url url = true ↔
         ∃ scheme netloc, pyUrlsplit url.toList = some (scheme, netloc) ∧
           (scheme = "http".toList ∨ scheme = "https".toList) ∧
           ("youtube.com".toList <:+: netloc ∨ "youtu.be".toList <:+: netloc)) ∧
    (∀ (url : String) (scheme netloc : List Char),
       pyUrlsplit url.toList = some (scheme, netloc) →
       scheme ≠ "http".toList → scheme ≠ "https".toList →
       is_valid_url url = false) ∧
    (∀ (url : String) (scheme netloc : List Char),
       pyUrlsplit url.toList = some (scheme, netloc) →
       ¬ ("youtube.com".toList <:+: netloc) → ¬ ("youtu.be".toList <:+: netloc) →
       is_valid_url url = false) ∧
    (∀ path : String, is_valid_url ("https://youtube.com/" ++ path) = true) := by
  refine ⟨?_, ?_, ?_, ?_⟩
  · intro url
    constructor
    · intro hv
      cases h : pyUrlsplit url.toList with
      | none =>
        rw [is_valid_url, h] at hv
        cases hv
      | some p =>
        obtain ⟨s, n⟩ := p
        rw [is_valid_url, h] at hv
        simp only [Bool.and_eq_true, Bool.or_eq_true, beq_iff_eq, pyIn,
          decide_eq_true_eq] at hv
        exact ⟨s, n, rfl, hv.1, hv.2⟩
    · rintro ⟨s, n, h, hs, hn⟩
      rw [is_valid_url, h]
      simp only [Bool.and_eq_true, Bool.or_eq_true, beq_iff_eq, pyIn,
        decide_eq_true_eq]
      exact ⟨hs, hn⟩
  · intro url s n h hs1 hs2
    simp only [is_valid_url, h]
    rw [beq_eq_false_iff_ne.mpr hs1, beq_eq_false_iff_ne.mpr hs2]
    simp
  · intro url s n h hn1 hn2
    have h1 : pyIn "youtube.com".toList n = false := by rw [pyIn, decide_eq_false hn1]
    have h2 : pyIn "youtu.be".toList n = false := by rw [pyIn, decide_eq_false hn2]
    simp only [is_valid_url, h]
    rw [h1, h2]
    simp
  · intro path
    have hsplit : pyUrlsplit ("https://youtube.com/" ++ path).toList =
        some ("https".toList, "youtube.com".toList) := by
      have h1 : ("https://youtube.com/" ++ path).toList =
          'h' :: 't' :: 't' :: 'p' :: 's' :: ':' :: '/' :: '/' ::
            ("youtube.com".toList ++ '/' :: path.toList) := by
        show ("https://youtube.com/" ++ path).data = _
        rw [String.data_append]
        rfl
      rw [h1]
      exact pyUrlsplit_https_host _ _ (by decide)
    rw [is_valid_url, hsplit]
    decide

/-- Witness for C2: instantiating the hypothesis-bearing parts at
"ftp://youtube.com/x" (scheme ftp), "https://example.com/x" (host
without either substring) and path "watch?v=dQw4w9WgXcQ". -/
theorem C2_witness :
    (pyUrlsplit "ftp://youtube.com/x".toList =
       some ("ftp".toList, "youtube.com".toList) ∧
     is_valid_url "ftp://youtube.com/x" = false) ∧
    (pyUrlsplit "https://example.com/x".toList =
       some ("https".toList, "example.com".toList) ∧
     is_valid_url "https://example.com/x" = false) ∧
    is_valid_url ("https://youtube.com/" ++ "watch?v=dQw4w9WgXcQ") = true :=
  ⟨⟨by decide,
    C2_is_valid_url_characterisation.2.1 "ftp://youtube.com/x"
      "ftp".toList "youtube.com".toList (by decide) (by decide) (by decide)⟩,
   ⟨by decide,
    C2_is_valid_url_characterisation.2.2.1 "https://example.com/x"
      "https".toList "example.com".toList (by decide) (by decide) (by decide)⟩,
   C2_is_valid_url_characterisation.2.2.2 "watch?v=dQw4w9WgXcQ"⟩

/-- C9: the host check is case-sensitive — `urlparse` preserves the
case of the network-location, so a URL whose host differs from
"youtube.com" or "youtu.be" only by letter case fails validation even
though it designates a YouTube host: concretely for
"https://WWW.YOUTUBE.COM/watch?v=x", and in general for every host
that is a proper case-variant of either "youtube.com" or "youtu.be",
under scheme https and any path. -/
theorem C9_host_check_is_case_sensitive :
    is_valid_url "https://WWW.YOUTUBE.COM/watch?v=x" = false ∧
    (∀ (h : List Char) (path : String),
       (h.map Char.toLower = "youtube.com".toList ∧ h ≠ "youtube.com".toList) ∨
         (h.map Char.toLower = "youtu.be".toList ∧ h ≠ "youtu.be".toList) →
       is_valid_url ("https://" ++ String.mk h ++ "/" ++ path) = false) := by
  constructor
  · decide
  · rintro h path (⟨hmap, hne⟩ | ⟨hmap, hne⟩)
    · have hclean : ∀ c ∈ h, hostClean c = true := by
        intro c hc
        refine hostClean_of_toLower_mem ?_
        rw [← hmap]
        exact List.mem_map_of_mem _ hc
      have hlen : h.length = 11 := by
        have := congrArg List.length hmap
        simpa using this
      refine is_valid_url_https_host_false h path hclean ?_ ?_
      · intro hinf
        have := hinf.sublist.eq_of_length (by simp [hlen])
        exact hne this.symm
      · intro hinf
        have hmapped := hinf.map Char.toLower
        rw [hmap] at hmapped
        rw [show "youtu.be".toList.map Char.toLower = "youtu.be".toList from by decide]
          at hmapped
        exact absurd hmapped (by decide)
    · have hclean : ∀ c ∈ h, hostClean c = true := by
        intro c hc
        refine hostClean_of_toLower_mem_be ?_
        rw [← hmap]
        exact List.mem_map_of_mem _ hc
      have hlen : h.length = 8 := by
        have := congrArg List.length hmap
        simpa using this
      refine is_valid_url_https_host_false h path hclean ?_ ?_
      · intro hinf
        have hle := hinf.sublist.length_le
        rw [hlen] at hle
        exact absurd hle (by decide)
      · intro hinf
        have := hinf.sublist.eq_of_length (by simp [hlen])
        exact hne this.symm

/-- Witness for C9 at the all-caps hosts "YOUTUBE.COM" and "YOUTU.BE". -/
theorem C9_witness :
    (("YOUTUBE.COM".toList.map Char.toLower = "youtube.com".toList ∧
      "YOUTUBE.COM".toList ≠ "youtube.com".toList) ∧
     is_valid_url ("https://" ++ String.mk "YOUTUBE.COM".toList ++ "/" ++ "watch?v=x") =
       false) ∧
    ("YOUTU.BE".toList.map Char.toLower = "youtu.be".toList ∧
     "YOUTU.BE".toList ≠ "youtu.be".toList) ∧
    is_valid_url ("https://" ++ String.mk "YOUTU.BE".toList ++ "/" ++ "abc") = false :=
  ⟨⟨⟨by decide, by decide⟩,
    C9_host_check_is_case_sensitive.2 "YOUTUBE.COM".toList "watch?v=x"
      (Or.inl ⟨by decide, by decide⟩)⟩,
   ⟨by decide, by decide⟩,
   C9_host_check_is_case_sensitive.2 "YOUTU.BE".toList "abc"
     (Or.inr ⟨by decide, by decide⟩)⟩

/-- C3: a CLI quality token whose case-insensitive form is not among
"highest"/"lowest"/"audio" is normalized to the Highest policy with the
warning printed, never propagated as an error (the run still exits 0 and
`download_video` is invoked with "highest"); a mixed-case token such as
"HIGHEST" matches case-insensitively, so the download proceeds exactly
as if "highest" had been entered, with no warning. -/
theorem C3_quality_normalized_to_highest :
    (∀ (rawUrl rawQuality : String)
       (resolve : Except PyError (List StreamDescriptor))
       (fetch : StreamDescriptor → Except PyError String),
       pyStrip rawQuality ≠ "" →
       pyLower (pyStrip rawQuality) ∉ SUPPORTED_QUALITIES →
       main (.normal rawUrl rawQuality resolve fetch) =
         ⟨0, true, some "highest",
          some (download_video (pyStrip rawUrl) "highest" resolve fetch), false⟩) ∧
    (∀ (rawUrl : String)
       (resolve : Except PyError (List StreamDescriptor))
       (fetch : StreamDescriptor → Except PyError String),
       main (.normal rawUrl "HIGHEST" resolve fetch) =
         ⟨0, false, some "highest",
          some (download_video (pyStrip rawUrl) "highest" resolve fetch), false⟩) := by
  constructor
  · intro rawUrl rawQuality resolve fetch hne hns
    have h1 : (pyStrip rawQuality == "") = false := beq_eq_false_iff_ne.mpr hne
    have h2 : pyLower "highest" = "highest" := by decide
    simp [main, get_user_input, h1, hns, h2]
  · intro rawUrl resolve fetch
    rfl

/-- Witness for C3 at the spec's tokens "medium" (unrecognised) and
"HIGHEST" (mixed case). -/
theorem C3_witness :
    (pyStrip "medium" ≠ "" ∧ pyLower (pyStrip "medium") ∉ SUPPORTED_QUALITIES) ∧
    main (.normal " https://youtu.be/a " "medium" (.ok []) (fun _ => .ok "p")) =
      ⟨0, true, some "highest",
       some (download_video (pyStrip " https://youtu.be/a ") "highest"
         (.ok []) (fun _ => .ok "p")), false⟩ ∧
    main (.normal " https://youtu.be/a " "HIGHEST" (.ok []) (fun _ => .ok "p")) =
      ⟨0, false, some "highest",
       some (download_video (pyStrip " https://youtu.be/a ") "highest"
         (.ok []) (fun _ => .ok "p")), false⟩ :=
  ⟨⟨by decide, by decide⟩,
   C3_quality_normalized_to_highest.1 " https://youtu.be/a " "medium"
     (.ok []) (fun _ => .ok "p") (by decide) (by decide),
   C3_quality_normalized_to_highest.2 " https://youtu.be/a "
     (.ok []) (fun _ => .ok "p")⟩

/-- C6: with quality "audio" the selection takes the first stream
flagged audio-only in collaborator order (it equals `List.find?` on the
audio-only flag, so no resolution is compared); on a stream set with no
audio-only entry it yields `none`, and `download_video` then returns the
"no stream available for requested quality" failure instead of raising. -/
theorem C6_audio_only_selection :
    (∀ streams : List StreamDescriptor,
       selectStream streams "audio" = streams.find? (fun s => s.onlyAudio)) ∧
    (∀ streams : List StreamDescriptor,
       (∀ s ∈ streams, s.onlyAudio = false) →
       selectStream streams "audio" = none) ∧
    (∀ (url : String) (streams : List StreamDescriptor)
       (fetch : StreamDescriptor → Except PyError String),
       is_valid_url url = true →
       (∀ s ∈ streams, s.onlyAudio = false) →
       download_video url "audio" (.ok streams) fetch =
         ⟨none, some .noStreamAvailable, true, false⟩) := by
  have h1 : ∀ streams : List StreamDescriptor,
      selectStream streams "audio" = streams.find? (fun s => s.onlyAudio) := by
    intro streams
    have : selectStream streams "audio" = firstAudio streams := rfl
    rw [this, firstAudio, head?_filter_eq_find?]
  have h2 : ∀ streams : List StreamDescriptor,
      (∀ s ∈ streams, s.onlyAudio = false) → selectStream streams "audio" = none := by
    intro streams h
    rw [h1]
    rw [List.find?_eq_none]
    intro s hs hcontra
    rw [h s hs] at hcontra
    cases hcontra
  refine ⟨h1, h2, ?_⟩
  intro url streams fetch hv hno
  simp [download_video, hv, h2 streams hno]

/-- Witness for C6: a video-only stream set with zero audio-only
entries. -/
theorem C6_witness :
    (is_valid_url "https://youtu.be/a" = true ∧
     (∀ s ∈ [(⟨some 720, false⟩ : StreamDescriptor)], s.onlyAudio = false)) ∧
    download_video "https://youtu.be/a" "audio"
      (.ok [⟨some 720, false⟩]) (fun _ => .ok "p") =
      ⟨none, some .noStreamAvailable, true, false⟩ :=
  ⟨⟨by decide, by decide⟩,
   C6_audio_only_selection.2.2 "https://youtu.be/a" [⟨some 720, false⟩]
     (fun _ => .ok "p") (by decide) (by decide)⟩

/-- C7: with quality "highest" the selected stream belongs to the set,
carries a resolution `r` that bounds every resolution present in the
set, and is the first stream attaining `r` (ties: first match wins);
with quality "lowest", symmetrically, `r` is a lower bound. -/
theorem C7_highest_lowest_resolution :
    (∀ (l : List StreamDescriptor) (s : StreamDescriptor),
       get_highest_resolution l = some s →
       s ∈ l ∧ ∃ r, s.resolution = some r ∧
         (∀ t ∈ l, ∀ rt, t.resolution = some rt → rt ≤ r) ∧
         l.find? (fun t => t.resolution == some r) = some s) ∧
    (∀ (l : List StreamDescriptor) (s : StreamDescriptor),
       get_lowest_resolution l = some s →
       s ∈ l ∧ ∃ r, s.resolution = some r ∧
         (∀ t ∈ l, ∀ rt, t.resolution = some rt → r ≤ rt) ∧
         l.find? (fun t => t.resolution == some r) = some s) := by
  constructor
  · intro l s h
    rw [get_highest_resolution] at h
    cases hm : maxRes l with
    | none => rw [hm] at h; cases h
    | some m =>
      rw [hm] at h
      refine ⟨List.mem_of_find?_eq_some h, m, ?_, maxRes_le hm, h⟩
      have := List.find?_some h
      exact eq_of_beq this
  · intro l s h
    rw [get_lowest_resolution] at h
    cases hm : minRes l with
    | none => rw [hm] at h; cases h
    | some m =>
      rw [hm] at h
      refine ⟨List.mem_of_find?_eq_some h, m, ?_, minRes_le hm, h⟩
      have := List.find?_some h
      exact eq_of_beq this

/-- Witness for C7: a three-stream set where 720p is the maximum and
360p the minimum. -/
theorem C7_witness :
    (get_highest_resolution
        [⟨some 360, false⟩, ⟨some 720, false⟩, ⟨none, true⟩] =
      some ⟨some 720, false⟩ ∧
     (⟨some 720, false⟩ : StreamDescriptor) ∈
        [(⟨some 360, false⟩ : StreamDescriptor), ⟨some 720, false⟩, ⟨none, true⟩]) ∧
    (get_lowest_resolution
        [⟨some 360, false⟩, ⟨some 720, false⟩, ⟨none, true⟩] =
      some ⟨some 360, false⟩ ∧
     (⟨some 360, false⟩ : StreamDescriptor) ∈
        [(⟨some 360, false⟩ : StreamDescriptor), ⟨some 720, false⟩, ⟨none, true⟩]) :=
  ⟨⟨by decide,
    (C7_highest_lowest_resolution.1
      [⟨some 360, false⟩, ⟨some 720, false⟩, ⟨none, true⟩]
      ⟨some 720, false⟩ (by decide)).1⟩,
   ⟨by decide,
    (C7_highest_lowest_resolution.2
      [⟨some 360, false⟩, ⟨some 720, false⟩, ⟨none, true⟩]
      ⟨some 360, false⟩ (by decide)).1⟩⟩

/-- C8: `main` exits with code 0 on every normal completion — whatever
the entered strings and the collaborator's behaviour, so in particular
on every handled download failure — and exits with code 1 exactly on
the interrupt event, after printing the cancellation message. -/
theorem C8_exit_codes :
    (∀ (rawUrl rawQuality : String)
       (resolve : Except PyError (List StreamDescriptor))
       (fetch : StreamDescriptor → Except PyError String),
       (main (.normal rawUrl rawQuality resolve fetch)).exitCode = 0) ∧
    (main .interrupt).exitCode = 1 ∧
    (main .interrupt).cancelMessagePrinted = true := by
  refine ⟨fun rawUrl rawQuality resolve fetch => rfl, rfl, rfl⟩

/-- C10: called directly with a quality token outside the three
recognised values (the CLI fallback lives in `main`, not here),
`download_video` still performs the network resolution
(`resolveCalled = true`), and when resolution yields streams it returns
the "no stream available" failure instead of falling back to Highest. -/
theorem C10_downloader_has_no_quality_fallback :
    (∀ (url quality : String)
       (resolve : Except PyError (List StreamDescriptor))
       (fetch : StreamDescriptor → Except PyError String),
       is_valid_url url = true →
       quality ∉ SUPPORTED_QUALITIES →
       (download_video url quality resolve fetch).resolveCalled = true) ∧
    (∀ (url quality : String) (streams : List StreamDescriptor)
       (fetch : StreamDescriptor → Except PyError String),
       is_valid_url url = true →
       quality ∉ SUPPORTED_QUALITIES →
       download_video url quality (.ok streams) fetch =
         ⟨none, some .noStreamAvailable, true, false⟩) := by
  constructor
  · intro url quality resolve fetch hv hq
    cases resolve with
    | error e => simp [download_video, hv]
    | ok streams =>
      simp [download_video, hv, selectStream_unsupported streams quality hq]
  · intro url quality streams fetch hv hq
    simp [download_video, hv, selectStream_unsupported streams quality hq]

/-- Witness for C10: a valid URL with the unrecognised token "medium"
and a non-empty stream set. -/
theorem C10_witness :
    (is_valid_url "https://youtu.be/a" = true ∧ "medium" ∉ SUPPORTED_QUALITIES) ∧
    download_video "https://youtu.be/a" "medium"
      (.ok [⟨some 720, false⟩]) (fun _ => .ok "p") =
      ⟨none, some .noStreamAvailable, true, false⟩ :=
  ⟨⟨by decide, by decide⟩,
   C10_downloader_has_no_quality_fallback.2 "https://youtu.be/a" "medium"
     [⟨some 720, false⟩] (fun _ => .ok "p") (by decide) (by decide)⟩

end YT
